import Mathlib

/-!
Shallow embedding of the Display logging library (src/Display.c and
src/Display.h).  The global mutable variables of Display.c are modelled as
an explicit `State` record threaded through every operation.  Writes to
FILE pointer sinks and pthread mutex operations are recorded as a list of
`Event`s, so that what a call emits, and to which sink, is observable.

Modelling choices:
* C `int` flags that only ever hold DISABLE (0) or ENABLE (1) are stored
  as `Bool`; setters take the raw `Int` argument so that invalid inputs
  can be expressed, and getters convert back (ENABLE for `true`).
* `exit(1)` paths are modelled with `Except`: the error value carries the
  state at the moment of termination together with the diagnostic text
  that is printed to stderr just before exiting.
* A `FILE *` is an `Option Sink`; `none` is a NULL pointer.
* `vsnprintf` is modelled over arguments pre-rendered as strings, with
  single-character conversion specifications: `%%` emits a percent sign,
  any other directive consumes one argument and emits its rendering (a
  directive with no remaining argument emits nothing; that case is
  undefined behaviour in C and never exercised by the theorems below).
* Timestamps (`strftime` of the current time) are passed in as an
  explicit `timestamp` argument.
-/

set_option autoImplicit false

namespace DisplayC

/-- A writable sink a `FILE *` can point to. -/
inductive Sink where
  | stdoutSink
  | stderrSink
  | fileSink (id : Nat)
deriving DecidableEq, Repr

/-- Observable effects: operations on the `consoleLock` pthread mutex and
`fprintf` writes of `data` to a resolved `FILE *` (`none` = NULL). -/
inductive Event where
  | lockMutex
  | unlockMutex
  | write (stream : Option Sink) (data : String)
deriving DecidableEq, Repr

/-- `BUFFLEN` from Display.h: buffer length for strings being printed. -/
def BUFFLEN : Nat := 256

/-- `enum Verbosity`: DISABLE = 0. -/
def DISABLE : Int := 0
/-- `enum Verbosity`: ENABLE = 1. -/
def ENABLE : Int := 1

/-- `enum PrintType`: STANDARD = 0. -/
def STANDARD : Int := 0
/-- `enum PrintType`: WARNING = 1. -/
def WARNING : Int := 1
/-- `enum PrintType`: ERROR = 2. -/
def ERROR : Int := 2
/-- `enum PrintType`: CUSTOM = 3. -/
def CUSTOM : Int := 3

/-- `enum PrintType` as the closed set of values the call macros pass to
`__Display`. -/
inductive PrintType where
  | standard
  | warning
  | error
  | custom
deriving DecidableEq, BEq, Repr

/-- Integer value of a `PrintType` enumerator. -/
def printTypeIdx : PrintType → Int
  | .standard => STANDARD
  | .warning => WARNING
  | .error => ERROR
  | .custom => CUSTOM

/-- ANSI reset sequence `RESET` from Display.h. -/
def RESET : String := "\x1b[0m"
/-- ANSI bold sequence `BOLD` from Display.h. -/
def BOLD : String := "\x1b[1m"
/-- ANSI color `YELLOW` from Display.h. -/
def YELLOW : String := "\x1b[33m"
/-- ANSI color `RED` from Display.h. -/
def RED : String := "\x1b[31m"

/-- The global variables of Display.c: `verbose`, `colorfulness`,
`file[32]`, `autoNewline`, `showTrace`, `isLocked`, `streams[3]` (one
field per array slot), `stdoutToFile`, `stderrToFile`. -/
structure State where
  verbose : Bool
  colorfulness : Bool
  file : String
  autoNewline : Bool
  showTrace : Bool
  isLocked : Bool
  streams0 : Option Sink
  streams1 : Option Sink
  streams2 : Option Sink
  stdoutToFile : Bool
  stderrToFile : Bool
deriving DecidableEq, Repr

/-- The default values of the globals in Display.c (static storage:
`streams[3]` starts as NULL pointers, the redirect flags as 0). -/
def initState : State :=
  { verbose := true
    colorfulness := true
    file := "?"
    autoNewline := true
    showTrace := true
    isLocked := false
    streams0 := none
    streams1 := none
    streams2 := none
    stdoutToFile := false
    stderrToFile := false }

/-- Result of a C function that may call `exit(1)`: the error value holds
the state at the moment of termination and the diagnostic dprinted to
stderr just before `exit`. -/
abbrev CResult (α : Type) := Except (State × String) α

/-- `GetVerbose` from Display.c. -/
def GetVerbose (s : State) : Int :=
  if s.verbose then ENABLE else DISABLE

/-- `SetVerbose` from Display.c. -/
def SetVerbose (v : Int) (s : State) : CResult (State × Int) :=
  if v = DISABLE ∨ v = ENABLE then
    Except.ok ({ s with verbose := v == ENABLE }, 0)
  else
    Except.error (s, "ERROR: Invalid verbosity value.\n")

/-- `GetColorfulness` from Display.c. -/
def GetColorfulness (s : State) : Int :=
  if s.colorfulness then ENABLE else DISABLE

/-- `SetColorfulness` from Display.c. -/
def SetColorfulness (c : Int) (s : State) : CResult (State × Int) :=
  if c = DISABLE ∨ c = ENABLE then
    Except.ok ({ s with colorfulness := c == ENABLE }, 0)
  else
    Except.error (s, "ERROR: Invalid colorfulness value.\n")

/-- `GetFilename` from Display.c. -/
def GetFilename (s : State) : String := s.file

/-- `SetFilename` from Display.c: `strncpy(file, newFilename,
sizeof(file)-1)` copies at most 31 characters (byte `file[31]` is NUL from
static initialisation and never overwritten), returning 0; a NULL input
returns -1 without touching `file`. -/
def SetFilename (newFilename : Option String) (s : State) : State × Int :=
  match newFilename with
  | some f => ({ s with file := String.mk (f.data.take 31) }, 0)
  | none => (s, -1)

/-- `GetAutoNewline` from Display.c. -/
def GetAutoNewline (s : State) : Int :=
  if s.autoNewline then ENABLE else DISABLE

/-- `SetAutoNewline` from Display.c. -/
def SetAutoNewline (a : Int) (s : State) : CResult (State × Int) :=
  if a = ENABLE ∨ a = DISABLE then
    Except.ok ({ s with autoNewline := a == ENABLE }, 0)
  else
    Except.error (s, "ERROR: Invalid auto newline value.\n")

/-- `GetShowTrace` from Display.c. -/
def GetShowTrace (s : State) : Int :=
  if s.showTrace then ENABLE else DISABLE

/-- `SetShowTrace` from Display.c. -/
def SetShowTrace (v : Int) (s : State) : CResult (State × Int) :=
  if v = ENABLE ∨ v = DISABLE then
    Except.ok ({ s with showTrace := v == ENABLE }, 0)
  else
    Except.error (s, "ERROR: Invalid show trace value.\n")

/-- Read of the C array `streams[i]` for an index already known to be in
range 0..2. -/
def streamsGet (s : State) (i : Int) : Option Sink :=
  if i = 0 then s.streams0
  else if i = 1 then s.streams1
  else s.streams2

/-- Write of the C array `streams[i]` for an index already known to be in
range 0..2. -/
def streamsSet (s : State) (i : Int) (v : Option Sink) : State :=
  if i = 0 then { s with streams0 := v }
  else if i = 1 then { s with streams1 := v }
  else { s with streams2 := v }

/-- `SetStream` from Display.c: stores the sink for an index in
STANDARD..ERROR, otherwise dprints a diagnostic and exits. -/
def SetStream (streamType : Int) (newStream : Option Sink) (s : State) :
    CResult (State × Int) :=
  if STANDARD ≤ streamType ∧ streamType ≤ ERROR then
    Except.ok (streamsSet s streamType newStream, 0)
  else
    Except.error (s, "ERROR: Invalid stream type. See PrintType enum.")

/-- `GetStream` from Display.c: returns `streams[streamType]` for an index
in STANDARD..ERROR, otherwise returns NULL (it does not exit). -/
def GetStream (streamType : Int) (s : State) : Option Sink :=
  if STANDARD ≤ streamType ∧ streamType ≤ ERROR then streamsGet s streamType
  else none

/-- `DisplayLock` from Display.c (the C function also returns 0): locks
the mutex only when `isLocked` is not already set, then sets it. -/
def DisplayLock (s : State) : State × List Event :=
  ({ s with isLocked := true },
   if s.isLocked then [] else [Event.lockMutex])

/-- `DisplayUnlock` from Display.c (the C function also returns 0):
unlocks the mutex only when `isLocked` is set, then clears it. -/
def DisplayUnlock (s : State) : State × List Event :=
  ({ s with isLocked := false },
   if s.isLocked then [Event.unlockMutex] else [])

/-- Character-level model of vsnprintf directive substitution (see the
module docstring for the conventions). -/
def formatRenderChars : List Char → List String → List Char
  | [], _ => []
  | '%' :: '%' :: rest, args => '%' :: formatRenderChars rest args
  | '%' :: _ :: rest, arg :: args => arg.data ++ formatRenderChars rest args
  | '%' :: _ :: rest, [] => formatRenderChars rest []
  | c :: rest, args => c :: formatRenderChars rest args

/-- `vsnprintf(buffer, size, format, args)`: the buffer receives the
rendering truncated to at most `size - 1` characters. -/
def vsnprintfStr (size : Nat) (format : String) (args : List String) : String :=
  String.mk ((formatRenderChars format.data args).take (size - 1))

/-- `dprint` from Display.c: renders its format and arguments with
`vsnprintf(messageBuffer, BUFFLEN-1, format, args)` and writes the
resulting buffer verbatim (`fprintf(stream, "%s", messageBuffer)`). -/
def dprint (stream : Option Sink) (format : String) (args : List String) :
    Event :=
  Event.write stream (vsnprintfStr (BUFFLEN - 1) format args)

/-- Lines 233-237 of Display.c: if output was detected as redirected for
the stream class this print type targets, colorfulness is disabled (via
`SetColorfulness(DISABLE)`, which always succeeds on that value). -/
def redirectSuppress (s : State) (type : PrintType) : State :=
  if (s.stdoutToFile ∧ type = PrintType.standard)
      ∨ (s.stderrToFile ∧ (type = PrintType.warning
            ∨ type = PrintType.error)) then
    { s with colorfulness := false }
  else s

/-- Lines 239-244 of Display.c: CUSTOM uses the caller-supplied file
descriptor, every other type goes through `GetStream`. -/
def resolveStream (s : State) (type : PrintType) (fd : Option Sink) :
    Option Sink :=
  if type = PrintType.custom then fd else GetStream (printTypeIdx type) s

/-- `__Display` from Display.c.  The calls `SetColorfulness(DISABLE)` and
`SetColorfulness(old_colorfulness)` in the source only ever receive
canonical values, so they reduce to plain assignments of the
`colorfulness` field (`redirectSuppress` and the final restore). -/
def __Display (s : State) (function : String) (type : PrintType)
    (fd : Option Sink) (color : String) (format : String)
    (args : List String) (timestamp : String) : State × List Event :=
  let lockEvents := if s.isLocked then [] else [Event.lockMutex]
  let old_colorfulness := s.colorfulness
  let s1 := redirectSuppress s type
  let stream := resolveStream s1 type fd
  let headerEvents :=
    if s1.showTrace then
      if s1.colorfulness then
        [dprint stream "%s[%s][%s][%s]" [color, timestamp, s1.file, function]]
      else
        [dprint stream "[%s][%s][%s]" [timestamp, s1.file, function]]
    else []
  let tagEvents :=
    if type = PrintType.error then [dprint stream "[ERROR] " []]
    else if type = PrintType.warning then [dprint stream "[WARNING] " []]
    else if s1.showTrace then [dprint stream " " []]
    else []
  let tmpBuffer := vsnprintfStr (BUFFLEN - 1) format args
  let bodyEvents := [dprint stream tmpBuffer []]
  let resetEvents := if s1.colorfulness then [dprint stream RESET []] else []
  let newlineEvents := if s1.autoNewline then [dprint stream "\n" []] else []
  let s2 := { s1 with colorfulness := old_colorfulness }
  let unlockEvents := if s.isLocked then [] else [Event.unlockMutex]
  (s2, lockEvents ++ headerEvents ++ tagEvents ++ bodyEvents
        ++ resetEvents ++ newlineEvents ++ unlockEvents)

/-- The `Display(format, ...)` macro from Display.h: gated on the raw
`verbose` global, then `__Display(__FUNCTION__, STANDARD, NULL, RESET,
format, ...)`. -/
def Display (s : State) (function : String) (format : String)
    (args : List String) (timestamp : String) : State × List Event :=
  if s.verbose then
    __Display s function PrintType.standard none RESET format args timestamp
  else (s, [])

/-- The `DisplayWarning(format, ...)` macro from Display.h: unconditional
`__Display(__FUNCTION__, WARNING, NULL, BOLD YELLOW, format, ...)`. -/
def DisplayWarning (s : State) (function : String) (format : String)
    (args : List String) (timestamp : String) : State × List Event :=
  __Display s function PrintType.warning none (BOLD ++ YELLOW) format args
    timestamp

/-- The `DisplayError(format, ...)` macro from Display.h: unconditional
`__Display(__FUNCTION__, ERROR, NULL, BOLD RED, format, ...)`. -/
def DisplayError (s : State) (function : String) (format : String)
    (args : List String) (timestamp : String) : State × List Event :=
  __Display s function PrintType.error none (BOLD ++ RED) format args
    timestamp

/-- The `DisplayColor(color, format, ...)` macro from Display.h: gated on
`verbose`, STANDARD type with the caller-supplied color. -/
def DisplayColor (s : State) (function : String) (color : String)
    (format : String) (args : List String) (timestamp : String) :
    State × List Event :=
  if s.verbose then
    __Display s function PrintType.standard none color format args timestamp
  else (s, [])

/-- The `DisplayFile(fd, format, ...)` macro from Display.h: unconditional
CUSTOM-type print to the caller-supplied file descriptor. -/
def DisplayFile (s : State) (fd : Option Sink) (function : String)
    (format : String) (args : List String) (timestamp : String) :
    State × List Event :=
  __Display s function PrintType.custom fd RESET format args timestamp

/-- Is this event a write? -/
def isWriteEv : Event → Bool
  | .write _ _ => true
  | _ => false

/-- Does the event list contain at least one write? -/
def hasWrite (evs : List Event) : Bool := evs.any isWriteEv

/-- Every write event in the list targets `target`. -/
def writesOnlyTo (evs : List Event) (target : Option Sink) : Prop :=
  ∀ snk data, Event.write snk data ∈ evs → snk = target

/-- Concatenation of all bytes written by the events, in order. -/
def outputConcat : List Event → String
  | [] => ""
  | Event.write _ d :: rest => d ++ outputConcat rest
  | _ :: rest => outputConcat rest

/-- A reachable configuration: after initialisation binding stdout to the
STANDARD slot, with trace, colorfulness and auto newline all disabled by
their setters. -/
def plainState : State := { initState with
  showTrace := false
  colorfulness := false
  autoNewline := false
  streams0 := some Sink.stdoutSink }

/-- A reachable configuration: after initialisation binding stdout to the
STANDARD slot, with trace disabled and colorfulness left enabled. -/
def noTraceState : State := { initState with
  showTrace := false
  streams0 := some Sink.stdoutSink }

/-- A reachable configuration: defaults with verbosity disabled. -/
def silentState : State := { initState with verbose := false }

@[simp]
theorem redirectSuppress_showTrace (s : State) (t : PrintType) :
    (redirectSuppress s t).showTrace = s.showTrace := by
  unfold redirectSuppress; split <;> rfl

@[simp]
theorem redirectSuppress_autoNewline (s : State) (t : PrintType) :
    (redirectSuppress s t).autoNewline = s.autoNewline := by
  unfold redirectSuppress; split <;> rfl

@[simp]
theorem redirectSuppress_streams0 (s : State) (t : PrintType) :
    (redirectSuppress s t).streams0 = s.streams0 := by
  unfold redirectSuppress; split <;> rfl

@[simp]
theorem redirectSuppress_streams1 (s : State) (t : PrintType) :
    (redirectSuppress s t).streams1 = s.streams1 := by
  unfold redirectSuppress; split <;> rfl

@[simp]
theorem redirectSuppress_streams2 (s : State) (t : PrintType) :
    (redirectSuppress s t).streams2 = s.streams2 := by
  unfold redirectSuppress; split <;> rfl

@[simp]
theorem outputConcat_nil : outputConcat [] = "" := rfl

@[simp]
theorem outputConcat_write (st : Option Sink) (d : String) (r : List Event) :
    outputConcat (Event.write st d :: r) = d ++ outputConcat r := rfl

@[simp]
theorem outputConcat_lock (r : List Event) :
    outputConcat (Event.lockMutex :: r) = outputConcat r := rfl

@[simp]
theorem outputConcat_unlock (r : List Event) :
    outputConcat (Event.unlockMutex :: r) = outputConcat r := rfl

@[simp]
theorem outputConcat_append (a b : List Event) :
    outputConcat (a ++ b) = outputConcat a ++ outputConcat b := by
  induction a with
  | nil => simp
  | cons e r ih => cases e <;> simp [ih, String.append_assoc]

@[simp]
theorem vsnprintf_errorTag : vsnprintfStr (BUFFLEN - 1) "[ERROR] " [] =
    "[ERROR] " := rfl

@[simp]
theorem vsnprintf_warningTag : vsnprintfStr (BUFFLEN - 1) "[WARNING] " [] =
    "[WARNING] " := rfl

@[simp]
theorem vsnprintf_space : vsnprintfStr (BUFFLEN - 1) " " [] = " " := rfl

@[simp]
theorem vsnprintf_reset : vsnprintfStr (BUFFLEN - 1) RESET [] = RESET := rfl

@[simp]
theorem vsnprintf_newline : vsnprintfStr (BUFFLEN - 1) "\n" [] = "\n" := rfl

theorem writesOnlyTo_nil (t : Option Sink) : writesOnlyTo [] t := by
  intro snk d h
  exact absurd h (List.not_mem_nil _)

theorem writesOnlyTo_append {a b : List Event} {t : Option Sink}
    (ha : writesOnlyTo a t) (hb : writesOnlyTo b t) :
    writesOnlyTo (a ++ b) t := by
  intro snk d h
  rcases List.mem_append.mp h with h | h
  exacts [ha _ _ h, hb _ _ h]

theorem writesOnlyTo_ite {c : Prop} [Decidable c] {a b : List Event}
    {t : Option Sink} (ha : writesOnlyTo a t) (hb : writesOnlyTo b t) :
    writesOnlyTo (if c then a else b) t := by
  split
  exacts [ha, hb]

theorem writesOnlyTo_lockMutex (t : Option Sink) :
    writesOnlyTo [Event.lockMutex] t := by
  intro snk d h
  simp at h

theorem writesOnlyTo_unlockMutex (t : Option Sink) :
    writesOnlyTo [Event.unlockMutex] t := by
  intro snk d h
  simp at h

theorem writesOnlyTo_dprint (st : Option Sink) (fmt : String)
    (args : List String) : writesOnlyTo [dprint st fmt args] st := by
  intro snk d h
  simp [dprint, Event.write.injEq] at h
  exact h.1

/-- Every write performed by `__Display` goes to the single resolved
stream of that call. -/
theorem display_writesOnlyTo (s : State) (f : String) (t : PrintType)
    (fd : Option Sink) (color fmt : String) (args : List String)
    (ts : String) :
    writesOnlyTo (__Display s f t fd color fmt args ts).2
      (resolveStream (redirectSuppress s t) t fd) := by
  simp only [__Display]
  refine writesOnlyTo_append (writesOnlyTo_append (writesOnlyTo_append
    (writesOnlyTo_append (writesOnlyTo_append (writesOnlyTo_append
      ?_ ?_) ?_) ?_) ?_) ?_) ?_
  · exact writesOnlyTo_ite (writesOnlyTo_nil _) (writesOnlyTo_lockMutex _)
  · exact writesOnlyTo_ite
      (writesOnlyTo_ite (writesOnlyTo_dprint _ _ _) (writesOnlyTo_dprint _ _ _))
      (writesOnlyTo_nil _)
  · exact writesOnlyTo_ite (writesOnlyTo_dprint _ _ _)
      (writesOnlyTo_ite (writesOnlyTo_dprint _ _ _)
        (writesOnlyTo_ite (writesOnlyTo_dprint _ _ _) (writesOnlyTo_nil _)))
  · exact writesOnlyTo_dprint _ _ _
  · exact writesOnlyTo_ite (writesOnlyTo_dprint _ _ _) (writesOnlyTo_nil _)
  · exact writesOnlyTo_ite (writesOnlyTo_dprint _ _ _) (writesOnlyTo_nil _)
  · exact writesOnlyTo_ite (writesOnlyTo_nil _) (writesOnlyTo_unlockMutex _)

/-- `__Display` always performs at least one write (the message body). -/
theorem display_hasWrite (s : State) (f : String) (t : PrintType)
    (fd : Option Sink) (color fmt : String) (args : List String)
    (ts : String) :
    hasWrite (__Display s f t fd color fmt args ts).2 = true := by
  simp [__Display, hasWrite, dprint, isWriteEv, List.any_append]

/-- Claim C1 (code divergence, evaluated): at a call with format string
containing percent signs, the rendered body is not written verbatim.
With format `%%%%` and no arguments, vsnprintf renders the body `%%`,
but `__Display` then hands that buffer to `dprint` as a format string,
so a second round of directive substitution runs and the bytes actually
written for the body are `%`, not `%%`. -/
theorem display_body_not_verbatim :
    vsnprintfStr (BUFFLEN - 1) "%%%%" [] = "%%" ∧
    __Display plainState "main" PrintType.standard none RESET "%%%%" []
        "12:00:00" =
      (plainState,
        [Event.lockMutex, Event.write (some Sink.stdoutSink) "%",
          Event.unlockMutex]) ∧
    outputConcat (__Display plainState "main" PrintType.standard none RESET
        "%%%%" [] "12:00:00").2 ≠
      vsnprintfStr (BUFFLEN - 1) "%%%%" [] := by
  refine ⟨rfl, rfl, ?_⟩
  decide

/-- Claim C2, counterexample: with trace display disabled but
colorfulness enabled, the emitted output still contains an ANSI escape
character (the color-reset suffix written at line 274-275 of Display.c),
so it is false that no ANSI escape sequence at all is emitted. -/
theorem trace_disabled_escape_counterexample :
    noTraceState.showTrace = false ∧
    noTraceState.colorfulness = true ∧
    '\x1b' ∈ (outputConcat (__Display noTraceState "main" PrintType.standard
      none RESET "hi" [] "12:00:00").2).data := by
  decide

/-- Claim C2, amended: when trace display is disabled the output of an
emit call carries no timestamp/label/function header and no color
prefix; it is exactly the category tag, the (twice-rendered) body, then
the color-reset sequence when (post-redirect-override) colorfulness is
enabled, then the newline when auto newline is enabled. -/
theorem trace_disabled_output (s : State) (f : String) (t : PrintType)
    (fd : Option Sink) (color fmt : String) (args : List String)
    (ts : String) (h : s.showTrace = false) :
    outputConcat (__Display s f t fd color fmt args ts).2 =
      (if t = PrintType.error then "[ERROR] "
       else if t = PrintType.warning then "[WARNING] " else "")
      ++ vsnprintfStr (BUFFLEN - 1) (vsnprintfStr (BUFFLEN - 1) fmt args) []
      ++ (if (redirectSuppress s t).colorfulness then RESET else "")
      ++ (if s.autoNewline then "\n" else "") := by
  have hst : (redirectSuppress s t).showTrace = false := by
    rw [redirectSuppress_showTrace, h]
  simp only [__Display, dprint, hst]
  cases t <;>
    simp [outputConcat_append, apply_ite outputConcat, String.append_assoc]

/-- Claim C2, amended, witness at a concrete reachable state. -/
theorem trace_disabled_output_witness :
    noTraceState.showTrace = false ∧
    outputConcat (__Display noTraceState "main" PrintType.standard none RESET
        "hi" [] "12:00:00").2 =
      (if PrintType.standard = PrintType.error then "[ERROR] "
       else if PrintType.standard = PrintType.warning then "[WARNING] "
       else "")
      ++ vsnprintfStr (BUFFLEN - 1) (vsnprintfStr (BUFFLEN - 1) "hi" []) []
      ++ (if (redirectSuppress noTraceState PrintType.standard).colorfulness
          then RESET else "")
      ++ (if noTraceState.autoNewline then "\n" else "") :=
  ⟨rfl, trace_disabled_output noTraceState "main" PrintType.standard none
    RESET "hi" [] "12:00:00" rfl⟩

/-- Claim C3: while verbosity is disabled, the `Display` macro produces
no events at all (in particular the print lock is never acquired),
whereas `DisplayWarning` and `DisplayError` still perform writes. -/
theorem verbosity_gating (s : State) (f fmt : String)
    (args : List String) (ts : String) (h : s.verbose = false) :
    Display s f fmt args ts = (s, []) ∧
    hasWrite (DisplayWarning s f fmt args ts).2 = true ∧
    hasWrite (DisplayError s f fmt args ts).2 = true := by
  refine ⟨?_, ?_, ?_⟩
  · simp [Display, h]
  · exact display_hasWrite s f PrintType.warning none (BOLD ++ YELLOW) fmt
      args ts
  · exact display_hasWrite s f PrintType.error none (BOLD ++ RED) fmt args ts

/-- Claim C3, witness at a concrete silenced state. -/
theorem verbosity_gating_witness :
    silentState.verbose = false ∧
    (Display silentState "main" "hi" [] "12:00:00" = (silentState, []) ∧
     hasWrite (DisplayWarning silentState "main" "hi" [] "12:00:00").2 =
       true ∧
     hasWrite (DisplayError silentState "main" "hi" [] "12:00:00").2 =
       true) :=
  ⟨rfl, verbosity_gating silentState "main" "hi" [] "12:00:00" rfl⟩

/-- Claim C4: for every emit call, whatever the category, sink, redirect
flags and configuration, the colorfulness flag observable after the call
equals its value before the call; the redirect override is call-local. -/
theorem colorfulness_restored (s : State) (f : String) (t : PrintType)
    (fd : Option Sink) (color fmt : String) (args : List String)
    (ts : String) :
    GetColorfulness (__Display s f t fd color fmt args ts).1 =
      GetColorfulness s := rfl

/-- Claim C5: for each of the four flags, setting any canonical value in
DISABLE, ENABLE succeeds and the corresponding getter then returns
exactly that value. -/
theorem flag_setter_roundtrip (v : Int) (s : State)
    (h : v = DISABLE ∨ v = ENABLE) :
    (∃ s', SetVerbose v s = Except.ok (s', 0) ∧ GetVerbose s' = v) ∧
    (∃ s', SetColorfulness v s = Except.ok (s', 0) ∧
      GetColorfulness s' = v) ∧
    (∃ s', SetAutoNewline v s = Except.ok (s', 0) ∧
      GetAutoNewline s' = v) ∧
    (∃ s', SetShowTrace v s = Except.ok (s', 0) ∧ GetShowTrace s' = v) := by
  rcases h with rfl | rfl <;>
    exact ⟨⟨_, rfl, rfl⟩, ⟨_, rfl, rfl⟩, ⟨_, rfl, rfl⟩, ⟨_, rfl, rfl⟩⟩

/-- Claim C5, witness at ENABLE on the default state. -/
theorem flag_setter_roundtrip_witness :
    (ENABLE = DISABLE ∨ ENABLE = ENABLE) ∧
    ((∃ s', SetVerbose ENABLE initState = Except.ok (s', 0) ∧
        GetVerbose s' = ENABLE) ∧
     (∃ s', SetColorfulness ENABLE initState = Except.ok (s', 0) ∧
        GetColorfulness s' = ENABLE) ∧
     (∃ s', SetAutoNewline ENABLE initState = Except.ok (s', 0) ∧
        GetAutoNewline s' = ENABLE) ∧
     (∃ s', SetShowTrace ENABLE initState = Except.ok (s', 0) ∧
        GetShowTrace s' = ENABLE)) :=
  ⟨Or.inr rfl, flag_setter_roundtrip ENABLE initState (Or.inr rfl)⟩

/-- Claim C6: for each of the four flag setters, any input other than
DISABLE and ENABLE terminates the process with the corresponding
diagnostic, and the state carried at that exit is the unmodified prior
state (in particular the flag keeps its prior value). -/
theorem flag_setter_invalid (v : Int) (s : State)
    (h : v ≠ DISABLE ∧ v ≠ ENABLE) :
    SetVerbose v s =
      Except.error (s, "ERROR: Invalid verbosity value.\n") ∧
    SetColorfulness v s =
      Except.error (s, "ERROR: Invalid colorfulness value.\n") ∧
    SetAutoNewline v s =
      Except.error (s, "ERROR: Invalid auto newline value.\n") ∧
    SetShowTrace v s =
      Except.error (s, "ERROR: Invalid show trace value.\n") := by
  refine ⟨?_, ?_, ?_, ?_⟩ <;>
    simp [SetVerbose, SetColorfulness, SetAutoNewline, SetShowTrace,
      h.1, h.2]

/-- Claim C6, witness at the invalid input 2. -/
theorem flag_setter_invalid_witness :
    ((2 : Int) ≠ DISABLE ∧ (2 : Int) ≠ ENABLE) ∧
    (SetVerbose 2 initState =
      Except.error (initState, "ERROR: Invalid verbosity value.\n") ∧
     SetColorfulness 2 initState =
      Except.error (initState, "ERROR: Invalid colorfulness value.\n") ∧
     SetAutoNewline 2 initState =
      Except.error (initState, "ERROR: Invalid auto newline value.\n") ∧
     SetShowTrace 2 initState =
      Except.error (initState, "ERROR: Invalid show trace value.\n")) :=
  ⟨by decide, flag_setter_invalid 2 initState (by decide)⟩

/-- Claim C7: a second `DisplayLock` while the lock is already held
performs no mutex operation and leaves the manual-hold flag true, and
`DisplayUnlock` while the lock is not manually held is a no-op. -/
theorem lock_idempotent_unlock_noop (s : State) :
    ((DisplayLock (DisplayLock s).1).2 = [] ∧
      (DisplayLock (DisplayLock s).1).1.isLocked = true) ∧
    (∀ t : State, t.isLocked = false → DisplayUnlock t = (t, [])) := by
  refine ⟨⟨rfl, rfl⟩, ?_⟩
  intro t ht
  cases t
  simp_all [DisplayUnlock]

/-- Claim C7, witness on the default (unheld) state. -/
theorem lock_idempotent_unlock_noop_witness :
    initState.isLocked = false ∧
    DisplayUnlock initState = (initState, []) ∧
    (DisplayLock (DisplayLock initState).1).2 = [] :=
  ⟨rfl, (lock_idempotent_unlock_noop initState).2 initState rfl,
    (lock_idempotent_unlock_noop initState).1.1⟩

/-- Claim C8: for each persistent category, after `SetStream` binds a
sink to that category, an emission to the category performs all of its
writes (and it does perform writes) on that sink, not on any other. -/
theorem stream_roundtrip (s : State) (snk : Sink) (f color fmt ts : String)
    (args : List String) (fd : Option Sink) :
    (∃ s', SetStream STANDARD (some snk) s = Except.ok (s', 0) ∧
      hasWrite (__Display s' f PrintType.standard fd color fmt args ts).2 =
        true ∧
      writesOnlyTo (__Display s' f PrintType.standard fd color fmt args ts).2
        (some snk)) ∧
    (∃ s', SetStream WARNING (some snk) s = Except.ok (s', 0) ∧
      hasWrite (__Display s' f PrintType.warning fd color fmt args ts).2 =
        true ∧
      writesOnlyTo (__Display s' f PrintType.warning fd color fmt args ts).2
        (some snk)) ∧
    (∃ s', SetStream ERROR (some snk) s = Except.ok (s', 0) ∧
      hasWrite (__Display s' f PrintType.error fd color fmt args ts).2 =
        true ∧
      writesOnlyTo (__Display s' f PrintType.error fd color fmt args ts).2
        (some snk)) := by
  refine ⟨⟨streamsSet s STANDARD (some snk), rfl,
      display_hasWrite _ _ _ _ _ _ _ _, ?_⟩,
    ⟨streamsSet s WARNING (some snk), rfl,
      display_hasWrite _ _ _ _ _ _ _ _, ?_⟩,
    ⟨streamsSet s ERROR (some snk), rfl,
      display_hasWrite _ _ _ _ _ _ _ _, ?_⟩⟩
  · have h1 : resolveStream
        (redirectSuppress (streamsSet s STANDARD (some snk))
          PrintType.standard) PrintType.standard fd = some snk := by
      simp [resolveStream, GetStream, streamsGet, printTypeIdx, STANDARD,
        ERROR, streamsSet]
    have h2 := display_writesOnlyTo (streamsSet s STANDARD (some snk)) f
      PrintType.standard fd color fmt args ts
    rwa [h1] at h2
  · have h1 : resolveStream
        (redirectSuppress (streamsSet s WARNING (some snk))
          PrintType.warning) PrintType.warning fd = some snk := by
      simp [resolveStream, GetStream, streamsGet, printTypeIdx, STANDARD,
        WARNING, ERROR, streamsSet]
    have h2 := display_writesOnlyTo (streamsSet s WARNING (some snk)) f
      PrintType.warning fd color fmt args ts
    rwa [h1] at h2
  · have h1 : resolveStream
        (redirectSuppress (streamsSet s ERROR (some snk))
          PrintType.error) PrintType.error fd = some snk := by
      simp [resolveStream, GetStream, streamsGet, printTypeIdx, STANDARD,
        WARNING, ERROR, streamsSet]
    have h2 := display_writesOnlyTo (streamsSet s ERROR (some snk)) f
      PrintType.error fd color fmt args ts
    rwa [h1] at h2

/-- Claim C9, counterexample: the empty string is not rejected by
`SetFilename`. It is non-NULL, so the code copies it and returns 0: the
stored label changes from the default `?` to the empty string and the
caller gets success, not an error indicator. -/
theorem setFilename_empty_counterexample :
    (SetFilename (some "") initState).2 = 0 ∧
    GetFilename (SetFilename (some "") initState).1 = "" ∧
    GetFilename initState = "?" := by
  decide

/-- Claim C9, amended: a NULL input returns the error indicator -1 and
leaves the stored label unchanged; any non-NULL input (the empty string
included) is copied truncated to the 31-character capacity of the fixed
buffer and the call returns 0. -/
theorem setFilename_behaviour (s : State) (name : String) :
    SetFilename none s = (s, -1) ∧
    (SetFilename (some name) s).2 = 0 ∧
    GetFilename (SetFilename (some name) s).1 =
      String.mk (name.data.take 31) ∧
    (GetFilename (SetFilename (some name) s).1).length ≤ 31 := by
  refine ⟨rfl, rfl, rfl, ?_⟩
  show (name.data.take 31).length ≤ 31
  rw [List.length_take]
  omega

/-- Claim C10: for any category index outside STANDARD..ERROR (CUSTOM
included), `GetStream` returns normally with a NULL sink, while
`SetStream` on the same index terminates with a diagnostic, carrying the
unmodified state. -/
theorem getStream_out_of_range (t : Int) (snk : Option Sink) (s : State)
    (h : t < STANDARD ∨ ERROR < t) :
    GetStream t s = none ∧
    SetStream t snk s =
      Except.error (s, "ERROR: Invalid stream type. See PrintType enum.") := by
  unfold GetStream SetStream STANDARD ERROR
  unfold STANDARD ERROR at h
  rw [if_neg (by omega), if_neg (by omega)]
  exact ⟨rfl, rfl⟩

/-- Claim C10, witness at the CUSTOM index. -/
theorem getStream_out_of_range_witness :
    (CUSTOM < STANDARD ∨ ERROR < CUSTOM) ∧
    (GetStream CUSTOM initState = none ∧
     SetStream CUSTOM none initState =
      Except.error (initState,
        "ERROR: Invalid stream type. See PrintType enum.")) :=
  ⟨by decide, getStream_out_of_range CUSTOM none initState (by decide)⟩

end DisplayC
